import Mathlib

/-!
Verification of the client-side authentication/session-lifecycle state
machine of the group-ride application, as implemented in the frontend
sources (AuthContext, App, OnboardingForm, SignUpForm).

The embedding is a shallow one: the mutable browser state (localStorage
plus the in-memory current user) becomes an explicit `AuthState` record,
the backend HTTP endpoints become an oracle `Backend` of response
functions, and each controller operation becomes a function from a
backend and a state to a result, a final state, the list of network
calls it performed, and the trace of intermediate observable states.
-/

namespace GroupRide

/-- Shape of the token response returned by the signin and refresh
endpoints (interface AuthResponse in the api service). -/
structure AuthResponse where
  access_token : String
  refresh_token : String
  token_type : String
  expires_in : Nat
deriving DecidableEq, Repr

/-- Shape of the identity returned by the who-am-I endpoint
(interface UserInfo in the api service). -/
structure UserInfo where
  user_id : String
  email : String
  name : Option String
deriving DecidableEq, Repr

/-- The Session Store: the two localStorage keys written by the auth
context (access_token and refresh_token); absent key = none. -/
structure Store where
  access_token : Option String
  refresh_token : Option String
deriving DecidableEq, Repr

/-- The auth controller state: the Session Store plus the in-memory
current user (the user field of the AuthContext provider). -/
structure AuthState where
  store : Store
  user : Option UserInfo
deriving DecidableEq, Repr

/-- Backend oracle: the outcome of each HTTP endpoint the auth
controller calls.  The who-am-I endpoint receives the bearer token the
client currently holds (getAuthHeaders reads it from the store). -/
structure Backend where
  signInResp : String → String → Except String AuthResponse
  refreshResp : String → Except String AuthResponse
  meResp : Option String → Except String UserInfo

/-- Network calls the auth controller can perform, recorded in order. -/
inductive NetCall where
  | signInCall (email password : String)
  | refreshCall (token : String)
  | meCall (bearer : Option String)
deriving DecidableEq, Repr

/-- Outcome of one controller operation: the promise result, the final
state, the network calls made, and the trace of observable states
(initial state first, then one entry per mutation). -/
structure OpResult where
  result : Except String Unit
  state : AuthState
  calls : List NetCall
  trace : List AuthState
deriving Repr

/-- saveTokens from AuthContext: writes both tokens to localStorage. -/
def saveTokens (s : Store) (r : AuthResponse) : Store :=
  { s with access_token := some r.access_token, refresh_token := some r.refresh_token }

/-- clearTokens from AuthContext: removes both keys from localStorage. -/
def clearTokens (_s : Store) : Store :=
  { access_token := none, refresh_token := none }

/-- signOut from AuthContext: clearTokens then setUser(null). -/
def signOut (st : AuthState) : AuthState :=
  { store := clearTokens st.store, user := none }

/-- isAuthenticated from AuthContext: double negation of the user. -/
def isAuthenticated (st : AuthState) : Bool :=
  st.user.isSome

/-- signIn from AuthContext: call the signin endpoint; on success save
the tokens, then fetch the identity with the freshly stored bearer
token and set the user.  Any error is rethrown to the caller. -/
def signIn (b : Backend) (email password : String) (st : AuthState) : OpResult :=
  match b.signInResp email password with
  | Except.error e =>
      { result := Except.error e, state := st,
        calls := [NetCall.signInCall email password], trace := [st] }
  | Except.ok resp =>
      let st1 : AuthState := { st with store := saveTokens st.store resp }
      match b.meResp st1.store.access_token with
      | Except.error e =>
          { result := Except.error e, state := st1,
            calls := [NetCall.signInCall email password, NetCall.meCall st1.store.access_token],
            trace := [st, st1] }
      | Except.ok u =>
          let st2 : AuthState := { st1 with user := some u }
          { result := Except.ok (), state := st2,
            calls := [NetCall.signInCall email password, NetCall.meCall st1.store.access_token],
            trace := [st, st1, st2] }

/-- The try block of refreshAuth from AuthContext: read the refresh
token (throwing when absent), call the refresh endpoint, save the new
tokens, refetch the identity and set the user.  The returned state
records the mutations performed before any throw. -/
def refreshAuthTry (b : Backend) (st : AuthState) : OpResult :=
  match st.store.refresh_token with
  | none =>
      { result := Except.error "No refresh token available", state := st,
        calls := [], trace := [st] }
  | some rt =>
      match b.refreshResp rt with
      | Except.error e =>
          { result := Except.error e, state := st,
            calls := [NetCall.refreshCall rt], trace := [st] }
      | Except.ok resp =>
          let st1 : AuthState := { st with store := saveTokens st.store resp }
          match b.meResp st1.store.access_token with
          | Except.error e =>
              { result := Except.error e, state := st1,
                calls := [NetCall.refreshCall rt, NetCall.meCall st1.store.access_token],
                trace := [st, st1] }
          | Except.ok u =>
              let st2 : AuthState := { st1 with user := some u }
              { result := Except.ok (), state := st2,
                calls := [NetCall.refreshCall rt, NetCall.meCall st1.store.access_token],
                trace := [st, st1, st2] }

/-- refreshAuth from AuthContext: the try block above wrapped in a
catch that logs, performs signOut and does not rethrow, so the promise
always resolves. -/
def refreshAuth (b : Backend) (st : AuthState) : OpResult :=
  let r := refreshAuthTry b st
  match r.result with
  | Except.ok _ => r
  | Except.error _ =>
      { result := Except.ok (), state := signOut r.state,
        calls := r.calls, trace := r.trace ++ [signOut r.state] }

/-- The screens AppContent can render. -/
inductive Screen where
  | Loading
  | ConfirmEmail
  | SignIn
  | SignUp
  | WelcomeGate
  | Onboarding
  | Main
deriving DecidableEq, Repr

/-- The useState flags of AppContent (App.tsx) together with the
stored signup email. -/
structure UIFlags where
  showSignUp : Bool
  showOnboarding : Bool
  hasProfile : Bool
  showConfirmEmail : Bool
  signUpEmail : String
deriving DecidableEq, Repr

/-- AppContent's render logic (App.tsx): the cascade of early returns
selecting the screen from isLoading, isAuthenticated and the flags. -/
def AppContent (authLoading isAuth : Bool) (ui : UIFlags) : Screen :=
  if authLoading then Screen.Loading
  else if !isAuth then
    if ui.showConfirmEmail then Screen.ConfirmEmail
    else if ui.showSignUp then Screen.SignUp
    else Screen.SignIn
  else if isAuth && !ui.hasProfile && !ui.showOnboarding then Screen.WelcomeGate
  else if ui.showOnboarding then Screen.Onboarding
  else Screen.Main

/-- handleSignOut from App.tsx: signOut() on the auth controller, then
setHasProfile(false), setShowOnboarding(false), setShowConfirmEmail(false),
setSignUpEmail(''). -/
def handleSignOut (st : AuthState) (ui : UIFlags) : AuthState × UIFlags :=
  (signOut st,
   { ui with hasProfile := false, showOnboarding := false,
             showConfirmEmail := false, signUpEmail := "" })

/-- handleOnboardingComplete from App.tsx. -/
def handleOnboardingComplete (ui : UIFlags) : UIFlags :=
  { ui with showOnboarding := false, hasProfile := true }

/-- Backend oracle for the onboarding submit handler. -/
structure OnbBackend where
  autoCreateProfile : Except String Unit
  completeOnboarding : Except String Unit

/-- The two network calls the onboarding submit can make, in order. -/
inductive OnbCall where
  | autoCreateCall
  | completeCall
deriving DecidableEq, Repr

/-- Outcome of the onboarding submit handler: the error message shown
(if any), whether onComplete was invoked, and the calls made. -/
structure OnbResult where
  error : Option String
  onCompleteInvoked : Bool
  calls : List OnbCall
deriving DecidableEq, Repr

/-- handleSubmit from OnboardingForm: await autoCreateProfile, then
await completeOnboarding, then onComplete(); any thrown error is
caught and shown, aborting the rest. -/
def onboardingHandleSubmit (b : OnbBackend) : OnbResult :=
  match b.autoCreateProfile with
  | Except.error e =>
      { error := some e, onCompleteInvoked := false, calls := [OnbCall.autoCreateCall] }
  | Except.ok _ =>
      match b.completeOnboarding with
      | Except.error e =>
          { error := some e, onCompleteInvoked := false,
            calls := [OnbCall.autoCreateCall, OnbCall.completeCall] }
      | Except.ok _ =>
          { error := none, onCompleteInvoked := true,
            calls := [OnbCall.autoCreateCall, OnbCall.completeCall] }

/-- The effect of one onboarding submission on the App flow flags:
handleOnboardingComplete runs exactly when onComplete was invoked. -/
def onboardingFlow (b : OnbBackend) (ui : UIFlags) : UIFlags :=
  if (onboardingHandleSubmit b).onCompleteInvoked then handleOnboardingComplete ui else ui

/-- handleSubmit from SignUpForm: local validation before any backend
call.  Returns the local error shown (if any) and whether signUp was
invoked. -/
def signUpFormSubmit (password confirmPassword : String) : Option String × Bool :=
  if password ≠ confirmPassword then (some "Passwords do not match", false)
  else if password.length < 8 then (some "Password must be at least 8 characters long", false)
  else (none, true)

/-! Concrete fixtures used by witnesses and counterexamples. -/

/-- An empty Session Store. -/
def emptyStore : Store := { access_token := none, refresh_token := none }

/-- The signed-out auth state. -/
def emptyAuth : AuthState := { store := emptyStore, user := none }

/-- An auth state holding a credential pair but no current user. -/
def storedAuth : AuthState :=
  { store := { access_token := some "acc0", refresh_token := some "ref0" }, user := none }

/-- A concrete token response. -/
def okResponse : AuthResponse :=
  { access_token := "acc1", refresh_token := "ref1", token_type := "bearer", expires_in := 3600 }

/-- A concrete identity. -/
def okUser : UserInfo := { user_id := "u1", email := "a@b.com", name := none }

/-- A backend on which every endpoint fails. -/
def downBackend : Backend :=
  { signInResp := fun _ _ => Except.error "down",
    refreshResp := fun _ => Except.error "down",
    meResp := fun _ => Except.error "down" }

/-- A backend on which every endpoint succeeds. -/
def okBackend : Backend :=
  { signInResp := fun _ _ => Except.ok okResponse,
    refreshResp := fun _ => Except.ok okResponse,
    meResp := fun _ => Except.ok okUser }

/-- A backend on which the token exchange succeeds but who-am-I
returns 401. -/
def meFailBackend : Backend :=
  { signInResp := fun _ _ => Except.ok okResponse,
    refreshResp := fun _ => Except.ok okResponse,
    meResp := fun _ => Except.error "401" }

/-- A backend on which the refresh endpoint rejects. -/
def refreshFailBackend : Backend :=
  { signInResp := fun _ _ => Except.error "down",
    refreshResp := fun _ => Except.error "expired",
    meResp := fun _ => Except.error "401" }

/-- The initial flow flags of AppContent. -/
def uiInit : UIFlags :=
  { showSignUp := false, showOnboarding := false, hasProfile := false,
    showConfirmEmail := false, signUpEmail := "" }

/-- An onboarding backend whose auto-create call returns 500. -/
def onbFailBackend : OnbBackend :=
  { autoCreateProfile := Except.error "500", completeOnboarding := Except.ok () }

/-- Whether an Except value is a success. -/
def exceptIsOk {ε α : Type} : Except ε α → Bool
  | Except.ok _ => true
  | Except.error _ => false

/-- Claim C1: when the token exchange succeeds but the who-am-I fetch
fails, signIn rejects with the surfaced error, the credential pair
persisted by the token exchange stays in the Session Store, and the
current user remains unset. -/
theorem signIn_whoami_failure_keeps_tokens
    (b : Backend) (email password : String) (st : AuthState)
    (resp : AuthResponse) (e : String)
    (hu : st.user = none)
    (h1 : b.signInResp email password = Except.ok resp)
    (h2 : b.meResp (some resp.access_token) = Except.error e) :
    (signIn b email password st).result = Except.error e ∧
    (signIn b email password st).state.store.access_token = some resp.access_token ∧
    (signIn b email password st).state.store.refresh_token = some resp.refresh_token ∧
    (signIn b email password st).state.user = none := by
  simp only [signIn, h1, saveTokens, h2]
  exact ⟨trivial, trivial, trivial, hu⟩

/-- Claim C1 witness: the theorem at a concrete backend and state. -/
theorem signIn_whoami_failure_keeps_tokens_witness :
    (signIn meFailBackend "a@b.com" "pw" emptyAuth).result = Except.error "401" ∧
    (signIn meFailBackend "a@b.com" "pw" emptyAuth).state.store.access_token = some okResponse.access_token ∧
    (signIn meFailBackend "a@b.com" "pw" emptyAuth).state.store.refresh_token = some okResponse.refresh_token ∧
    (signIn meFailBackend "a@b.com" "pw" emptyAuth).state.user = none :=
  signIn_whoami_failure_keeps_tokens meFailBackend "a@b.com" "pw" emptyAuth okResponse "401" rfl rfl rfl

/-- Claim C2 counterexample: with no refresh token in the store,
refreshAuth resolves normally (it does not reject with an AuthError
message "no refresh token"); no network call is made, but the claimed
rejection does not happen. -/
theorem refreshAuth_no_token_does_not_reject_cex :
    (refreshAuth downBackend emptyAuth).result = Except.ok () ∧
    (refreshAuth downBackend emptyAuth).result ≠ Except.error "no refresh token" ∧
    (refreshAuth downBackend emptyAuth).calls = [] := by
  refine ⟨rfl, ?_, rfl⟩
  intro h
  simp [refreshAuth, refreshAuthTry, emptyAuth, emptyStore] at h

/-- Claim C2 amended: with no refresh token in the store, refreshAuth
performs no network call; internally the try block fails with the
message "No refresh token available", but the error is caught:
refreshAuth performs signOut and resolves normally instead of
rejecting to its caller. -/
theorem refreshAuth_no_token_internal_error
    (b : Backend) (st : AuthState)
    (h : st.store.refresh_token = none) :
    (refreshAuthTry b st).result = Except.error "No refresh token available" ∧
    (refreshAuth b st).result = Except.ok () ∧
    (refreshAuth b st).calls = [] ∧
    (refreshAuth b st).state = signOut st := by
  simp only [refreshAuth, refreshAuthTry, h]
  exact ⟨trivial, trivial, trivial, trivial⟩

/-- Claim C2 amended witness: the amended theorem at a concrete
backend and the empty state. -/
theorem refreshAuth_no_token_internal_error_witness :
    (refreshAuthTry downBackend emptyAuth).result = Except.error "No refresh token available" ∧
    (refreshAuth downBackend emptyAuth).result = Except.ok () ∧
    (refreshAuth downBackend emptyAuth).calls = [] ∧
    (refreshAuth downBackend emptyAuth).state = signOut emptyAuth :=
  refreshAuth_no_token_internal_error downBackend emptyAuth rfl

/-- Claim C3: the screen selection is a total deterministic function of
the six boolean flags (it never depends on the stored signup email),
exactly one screen is selected for every flag combination, and whenever
authLoading is true the selected screen is Loading. -/
theorem flow_screen_total_loading_wins
    (authLoading isAuth : Bool) (ui ui' : UIFlags)
    (h1 : ui.showSignUp = ui'.showSignUp)
    (h2 : ui.showConfirmEmail = ui'.showConfirmEmail)
    (h3 : ui.showOnboarding = ui'.showOnboarding)
    (h4 : ui.hasProfile = ui'.hasProfile) :
    (∃! sc : Screen, AppContent authLoading isAuth ui = sc) ∧
    AppContent true isAuth ui = Screen.Loading ∧
    AppContent authLoading isAuth ui = AppContent authLoading isAuth ui' := by
  refine ⟨⟨AppContent authLoading isAuth ui, rfl, fun sc hsc => hsc.symm⟩, rfl, ?_⟩
  simp only [AppContent, h1, h2, h3, h4]

/-- Claim C3 witness: the theorem at a concrete flag combination, with
two flag-equal states that differ in the stored signup email. -/
theorem flow_screen_total_loading_wins_witness :
    (∃! sc : Screen, AppContent false false uiInit = sc) ∧
    AppContent true false uiInit = Screen.Loading ∧
    AppContent false false uiInit = AppContent false false { uiInit with signUpEmail := "a@b.com" } :=
  flow_screen_total_loading_wins false false uiInit
    { uiInit with signUpEmail := "a@b.com" } rfl rfl rfl rfl

/-- Claim C4: signOut always yields an unauthenticated state with an
empty Session Store, never fails (it is a total function), and is
idempotent. -/
theorem signOut_clears_and_idempotent (st : AuthState) :
    isAuthenticated (signOut st) = false ∧
    (signOut st).store = emptyStore ∧
    (signOut st).user = none ∧
    signOut (signOut st) = signOut st :=
  ⟨rfl, rfl, rfl, rfl⟩

/-- Claim C5: in every successful signIn the credential pair is
persisted strictly before the identity fetch populates the current
user: the observable trace is exactly initial state, then tokens saved
with the user still unset, then user set with the token still stored;
hence no observable state has a populated user without the access
token in the store. -/
theorem signIn_persists_tokens_before_user
    (b : Backend) (email password : String) (st : AuthState)
    (resp : AuthResponse) (u : UserInfo)
    (hu : st.user = none)
    (h1 : b.signInResp email password = Except.ok resp)
    (h2 : b.meResp (some resp.access_token) = Except.ok u) :
    (signIn b email password st).result = Except.ok () ∧
    (signIn b email password st).trace =
      [st,
       { st with store := saveTokens st.store resp },
       { store := saveTokens st.store resp, user := some u }] ∧
    (∀ s ∈ (signIn b email password st).trace,
       s.user ≠ none → s.store.access_token = some resp.access_token) ∧
    (signIn b email password st).state.user = some u ∧
    (signIn b email password st).state.store.access_token = some resp.access_token := by
  simp only [signIn, h1, saveTokens, h2]
  refine ⟨trivial, trivial, ?_, trivial, trivial⟩
  intro s hs huser
  simp only [List.mem_cons, List.mem_singleton, List.not_mem_nil, or_false] at hs
  rcases hs with hs | hs | hs
  · exact absurd (hs ▸ hu) huser
  · subst hs; exact absurd hu huser
  · subst hs; rfl

/-- Claim C5 witness: the theorem at a concrete all-success backend and
the empty initial state. -/
theorem signIn_persists_tokens_before_user_witness :
    (signIn okBackend "a@b.com" "pw" emptyAuth).result = Except.ok () ∧
    (signIn okBackend "a@b.com" "pw" emptyAuth).trace =
      [emptyAuth,
       { emptyAuth with store := saveTokens emptyAuth.store okResponse },
       { store := saveTokens emptyAuth.store okResponse, user := some okUser }] ∧
    (∀ s ∈ (signIn okBackend "a@b.com" "pw" emptyAuth).trace,
       s.user ≠ none → s.store.access_token = some okResponse.access_token) ∧
    (signIn okBackend "a@b.com" "pw" emptyAuth).state.user = some okUser ∧
    (signIn okBackend "a@b.com" "pw" emptyAuth).state.store.access_token = some okResponse.access_token :=
  signIn_persists_tokens_before_user okBackend "a@b.com" "pw" emptyAuth okResponse okUser rfl rfl rfl

/-- Claim C6: when the backend refresh request fails, refreshAuth
performs an implicit signOut — both tokens are removed, the state is
unauthenticated — and the refresh endpoint was called exactly once
(no retry). -/
theorem refreshAuth_backend_failure_signs_out
    (b : Backend) (st : AuthState) (rt e : String)
    (h1 : st.store.refresh_token = some rt)
    (h2 : b.refreshResp rt = Except.error e) :
    (refreshAuth b st).state = signOut st ∧
    isAuthenticated (refreshAuth b st).state = false ∧
    (refreshAuth b st).state.store.access_token = none ∧
    (refreshAuth b st).state.store.refresh_token = none ∧
    (refreshAuth b st).calls = [NetCall.refreshCall rt] := by
  simp only [refreshAuth, refreshAuthTry, h1, h2]
  exact ⟨trivial, rfl, rfl, rfl, trivial⟩

/-- Claim C6 witness: the theorem at a concrete failing backend and a
state holding both tokens. -/
theorem refreshAuth_backend_failure_signs_out_witness :
    (refreshAuth refreshFailBackend storedAuth).state = signOut storedAuth ∧
    isAuthenticated (refreshAuth refreshFailBackend storedAuth).state = false ∧
    (refreshAuth refreshFailBackend storedAuth).state.store.access_token = none ∧
    (refreshAuth refreshFailBackend storedAuth).state.store.refresh_token = none ∧
    (refreshAuth refreshFailBackend storedAuth).calls = [NetCall.refreshCall "ref0"] :=
  refreshAuth_backend_failure_signs_out refreshFailBackend storedAuth "ref0" "expired" rfl rfl

/-- Claim C7 counterexample: the sign-out handler does not reset
showSignUp — from a prior state with showSignUp true, it is still true
after handleSignOut, contradicting the claim that all flow flags are
reset to their initial (false) values. -/
theorem handleSignOut_leaves_showSignUp_cex :
    (handleSignOut storedAuth { uiInit with showSignUp := true }).2.showSignUp = true ∧
    (handleSignOut storedAuth { uiInit with showSignUp := true }).2.showSignUp ≠ false := by
  exact ⟨rfl, by decide⟩

/-- Claim C7 amended: for every prior state, the sign-out handler
resets hasProfile, showOnboarding and showConfirmEmail to false and
pendingSignupEmail to absent, and leaves the auth state
unauthenticated; showSignUp, however, is left unchanged rather than
reset. -/
theorem handleSignOut_resets_flags (st : AuthState) (ui : UIFlags) :
    (handleSignOut st ui).2.hasProfile = false ∧
    (handleSignOut st ui).2.showOnboarding = false ∧
    (handleSignOut st ui).2.showConfirmEmail = false ∧
    (handleSignOut st ui).2.signUpEmail = "" ∧
    (handleSignOut st ui).2.showSignUp = ui.showSignUp ∧
    isAuthenticated (handleSignOut st ui).1 = false :=
  ⟨rfl, rfl, rfl, rfl, rfl, rfl⟩

/-- Claim C8: the combined profile+preferences write is attempted if
and only if the auto-create-profile call succeeds; onComplete is
invoked exactly when both calls succeed; the surfaced error is the
auto-create error when it fails, else the combined-write error when
that fails, else none; and hasProfile after the flow equals whether
onComplete was invoked (so it remains false on any failure). -/
theorem onboarding_two_phase
    (b : OnbBackend) (ui : UIFlags)
    (h : ui.hasProfile = false) :
    ((OnbCall.completeCall ∈ (onboardingHandleSubmit b).calls) ↔
       b.autoCreateProfile = Except.ok ()) ∧
    (onboardingHandleSubmit b).onCompleteInvoked =
      (exceptIsOk b.autoCreateProfile && exceptIsOk b.completeOnboarding) ∧
    (onboardingHandleSubmit b).error =
      (match b.autoCreateProfile with
       | Except.error e => some e
       | Except.ok _ =>
         match b.completeOnboarding with
         | Except.error e => some e
         | Except.ok _ => none) ∧
    (onboardingFlow b ui).hasProfile = (onboardingHandleSubmit b).onCompleteInvoked := by
  rcases b with ⟨ac, co⟩
  rcases ac with e | u
  · rcases co with e2 | u2 <;>
      simp [onboardingHandleSubmit, onboardingFlow, handleOnboardingComplete, exceptIsOk, h]
  · rcases u
    rcases co with e2 | u2 <;>
      simp [onboardingHandleSubmit, onboardingFlow, handleOnboardingComplete, exceptIsOk, h]

/-- Claim C8 witness: the theorem at a backend whose auto-create call
returns 500 and the initial flow flags. -/
theorem onboarding_two_phase_witness :
    ((OnbCall.completeCall ∈ (onboardingHandleSubmit onbFailBackend).calls) ↔
       onbFailBackend.autoCreateProfile = Except.ok ()) ∧
    (onboardingHandleSubmit onbFailBackend).onCompleteInvoked =
      (exceptIsOk onbFailBackend.autoCreateProfile && exceptIsOk onbFailBackend.completeOnboarding) ∧
    (onboardingHandleSubmit onbFailBackend).error =
      (match onbFailBackend.autoCreateProfile with
       | Except.error e => some e
       | Except.ok _ =>
         match onbFailBackend.completeOnboarding with
         | Except.error e => some e
         | Except.ok _ => none) ∧
    (onboardingFlow onbFailBackend uiInit).hasProfile =
      (onboardingHandleSubmit onbFailBackend).onCompleteInvoked :=
  onboarding_two_phase onbFailBackend uiInit rfl

/-- Claim C9: refreshAuth always resolves normally — for every state
and every backend outcome its result is success — and whenever the
internal try block failed (missing refresh token, refresh rejection or
identity-fetch rejection) the final state is the signed-out state. -/
theorem refreshAuth_never_rejects (b : Backend) (st : AuthState) :
    (refreshAuth b st).result = Except.ok () ∧
    (refreshAuth b st).state =
      (if exceptIsOk (refreshAuthTry b st).result then (refreshAuthTry b st).state
       else signOut (refreshAuthTry b st).state) := by
  cases hr : (refreshAuthTry b st).result with
  | ok u => rcases u; simp [refreshAuth, hr, exceptIsOk]
  | error e => simp [refreshAuth, hr, exceptIsOk]

/-- Claim C10: the sign-up form validates locally before any backend
interaction — signUp is invoked exactly when the two password fields
match and the password has at least 8 characters; otherwise the local
error shown is the mismatch message when the fields differ, else the
length message; no error is shown exactly when signUp is invoked. -/
theorem signUpForm_local_validation (p c : String) :
    ((signUpFormSubmit p c).2 = true ↔ (p = c ∧ 8 ≤ p.length)) ∧
    (signUpFormSubmit p c).1 =
      (if p ≠ c then some "Passwords do not match"
       else if p.length < 8 then some "Password must be at least 8 characters long"
       else none) ∧
    ((signUpFormSubmit p c).1 = none ↔ (signUpFormSubmit p c).2 = true) := by
  by_cases hpc : p = c
  · subst hpc
    by_cases hlen : p.length < 8 <;>
      simp [signUpFormSubmit, hlen] <;> omega
  · simp [signUpFormSubmit, hpc]

/-- Claim C10 witness: the theorem at a concrete matching pair of
length 9. -/
theorem signUpForm_local_validation_witness :
    ((signUpFormSubmit "password1" "password1").2 = true ↔
       ("password1" = "password1" ∧ 8 ≤ ("password1" : String).length)) ∧
    (signUpFormSubmit "password1" "password1").1 =
      (if ("password1" : String) ≠ "password1" then some "Passwords do not match"
       else if ("password1" : String).length < 8 then some "Password must be at least 8 characters long"
       else none) ∧
    ((signUpFormSubmit "password1" "password1").1 = none ↔
       (signUpFormSubmit "password1" "password1").2 = true) :=
  signUpForm_local_validation "password1" "password1"

end GroupRide
